import Mathlib

/-!
Shallow embedding of the Order-lifecycle State pattern of
`src/design_patterns/behavioural/state.py`.

The Python file defines five concrete state classes (`CreatedState`,
`PaidState`, `ShippedState`, `DeliveredState`, `CancelledState`), each
implementing the four operations `pay`, `ship`, `deliver`, `cancel`, and a
dataclass `Order` holding `order_id` and `_state` that delegates the four
operations to the current state object and answers `status()`.

A state object carries no instance data, so at the value level it is fully
determined by its class; the value-level model below embeds a state object as
its class tag.  A method call in Python either returns normally or raises, and
`Order.log` prints a line; accordingly every method is embedded as a function
into `Except String (Order × List String)`: an uncaught exception, or the
updated order together with the printed lines.

Object identity (the dataclass field default `_state: OrderState =
CreatedState()` is a single object evaluated at class-definition time and
shared by every default-constructed `Order`) is modelled separately at the end
with an explicit heap of state objects addressed by references.
-/

/-- The five lifecycle state classes of `state.py`. -/
inductive St where
  | created
  | paid
  | shipped
  | delivered
  | cancelled
  deriving DecidableEq, Repr

/-- The four lifecycle operations that `Order` delegates to its state. -/
inductive Op where
  | pay
  | ship
  | deliver
  | cancel
  deriving DecidableEq, Repr

/-- The `Order` dataclass: `order_id` and the current state (`_state`), the
state object embedded as its class tag. -/
structure Order where
  order_id : String
  _state : St
  deriving DecidableEq, Repr

/-- The result of one Python call on an order: an uncaught exception, or the
updated order together with the lines printed while it ran. -/
abbrev PyResult := Except String (Order × List String)

/-- Sequencing of two Python calls: an exception propagates, printed output
concatenates. -/
def pySeq (x : PyResult) (f : Order → PyResult) : PyResult :=
  match x with
  | .error e => .error e
  | .ok (o, out) =>
      match f o with
      | .error e => .error e
      | .ok (o2, out2) => .ok (o2, out ++ out2)

/-- `Order._set_state`: replace the current state object (prints nothing,
raises nothing). -/
def Order._set_state (o : Order) (s : St) : PyResult :=
  .ok ({ o with _state := s }, [])

/-- `Order.log`: print one line `[Order <id>] <message>`. -/
def Order.log (o : Order) (message : String) : PyResult :=
  .ok (o, ["[Order " ++ o.order_id ++ "] " ++ message])

/-- `CreatedState.pay`: `_set_state(PaidState())` then log. -/
def CreatedState.pay (order : Order) : PyResult :=
  pySeq (order._set_state St.paid)
    (fun order => order.log "Payment received; state -> PAID")

/-- `CreatedState.ship`: rejection, log only. -/
def CreatedState.ship (order : Order) : PyResult :=
  order.log "Cannot ship: payment pending"

/-- `CreatedState.deliver`: rejection, log only. -/
def CreatedState.deliver (order : Order) : PyResult :=
  order.log "Cannot deliver: not shipped"

/-- `CreatedState.cancel`: `_set_state(CancelledState())` then log. -/
def CreatedState.cancel (order : Order) : PyResult :=
  pySeq (order._set_state St.cancelled)
    (fun order => order.log "Order cancelled; state -> CANCELLED")

/-- `PaidState.pay`: rejection, log only. -/
def PaidState.pay (order : Order) : PyResult :=
  order.log "Already paid"

/-- `PaidState.ship`: `_set_state(ShippedState())` then log. -/
def PaidState.ship (order : Order) : PyResult :=
  pySeq (order._set_state St.shipped)
    (fun order => order.log "Order shipped; state -> SHIPPED")

/-- `PaidState.deliver`: rejection, log only. -/
def PaidState.deliver (order : Order) : PyResult :=
  order.log "Cannot deliver: not shipped yet"

/-- `PaidState.cancel`: `_set_state(CancelledState())` then log. -/
def PaidState.cancel (order : Order) : PyResult :=
  pySeq (order._set_state St.cancelled)
    (fun order => order.log "Order cancelled; state -> CANCELLED (refund required)")

/-- `ShippedState.pay`: rejection, log only. -/
def ShippedState.pay (order : Order) : PyResult :=
  order.log "Already paid and shipped"

/-- `ShippedState.ship`: rejection, log only. -/
def ShippedState.ship (order : Order) : PyResult :=
  order.log "Already shipped"

/-- `ShippedState.deliver`: `_set_state(DeliveredState())` then log. -/
def ShippedState.deliver (order : Order) : PyResult :=
  pySeq (order._set_state St.delivered)
    (fun order => order.log "Order delivered; state -> DELIVERED")

/-- `ShippedState.cancel`: rejection, log only. -/
def ShippedState.cancel (order : Order) : PyResult :=
  order.log "Cannot cancel: already shipped"

/-- `DeliveredState.pay`: rejection, log only. -/
def DeliveredState.pay (order : Order) : PyResult :=
  order.log "Already completed"

/-- `DeliveredState.ship`: rejection, log only. -/
def DeliveredState.ship (order : Order) : PyResult :=
  order.log "Already delivered"

/-- `DeliveredState.deliver`: rejection, log only. -/
def DeliveredState.deliver (order : Order) : PyResult :=
  order.log "Already delivered"

/-- `DeliveredState.cancel`: rejection, log only. -/
def DeliveredState.cancel (order : Order) : PyResult :=
  order.log "Cannot cancel: already delivered"

/-- `CancelledState.pay`: rejection, log only. -/
def CancelledState.pay (order : Order) : PyResult :=
  order.log "Cannot pay: order cancelled"

/-- `CancelledState.ship`: rejection, log only. -/
def CancelledState.ship (order : Order) : PyResult :=
  order.log "Cannot ship: order cancelled"

/-- `CancelledState.deliver`: rejection, log only. -/
def CancelledState.deliver (order : Order) : PyResult :=
  order.log "Cannot deliver: order cancelled"

/-- `CancelledState.cancel`: rejection, log only. -/
def CancelledState.cancel (order : Order) : PyResult :=
  order.log "Already cancelled"

/-- `Order.pay`: delegate to the current state's `pay` (Python dynamic
dispatch on the class of `self._state`). -/
def Order.pay (o : Order) : PyResult :=
  match o._state with
  | .created => CreatedState.pay o
  | .paid => PaidState.pay o
  | .shipped => ShippedState.pay o
  | .delivered => DeliveredState.pay o
  | .cancelled => CancelledState.pay o

/-- `Order.ship`: delegate to the current state's `ship`. -/
def Order.ship (o : Order) : PyResult :=
  match o._state with
  | .created => CreatedState.ship o
  | .paid => PaidState.ship o
  | .shipped => ShippedState.ship o
  | .delivered => DeliveredState.ship o
  | .cancelled => CancelledState.ship o

/-- `Order.deliver`: delegate to the current state's `deliver`. -/
def Order.deliver (o : Order) : PyResult :=
  match o._state with
  | .created => CreatedState.deliver o
  | .paid => PaidState.deliver o
  | .shipped => ShippedState.deliver o
  | .delivered => DeliveredState.deliver o
  | .cancelled => CancelledState.deliver o

/-- `Order.cancel`: delegate to the current state's `cancel`. -/
def Order.cancel (o : Order) : PyResult :=
  match o._state with
  | .created => CreatedState.cancel o
  | .paid => PaidState.cancel o
  | .shipped => ShippedState.cancel o
  | .delivered => DeliveredState.cancel o
  | .cancelled => CancelledState.cancel o

/-- Invoke one of the four operations on an order. -/
def Order.apply (o : Order) : Op → PyResult
  | .pay => o.pay
  | .ship => o.ship
  | .deliver => o.deliver
  | .cancel => o.cancel

/-- The Python class name of a state object (`__class__.__name__`). -/
def St.className : St → String
  | .created => "CreatedState"
  | .paid => "PaidState"
  | .shipped => "ShippedState"
  | .delivered => "DeliveredState"
  | .cancelled => "CancelledState"

/-- Python `str.replace` on character lists: replace each non-overlapping
occurrence of `pat`, scanning left to right.  The `fuel` argument (the input's
length at the call site) only makes the recursion structural. -/
def replaceChars (pat rep : List Char) : Nat → List Char → List Char
  | _, [] => []
  | 0, s => s
  | f + 1, c :: cs =>
      if pat.isPrefixOf (c :: cs) then
        rep ++ replaceChars pat rep f (List.drop pat.length (c :: cs))
      else
        c :: replaceChars pat rep f cs

/-- Python `str.replace` for a non-empty pattern (the only use in the source
is the pattern `"State"`). -/
def pyReplace (s pat rep : String) : String :=
  String.mk (replaceChars pat.data rep.data s.data.length s.data)

/-- Python `str.upper` for ASCII text (the only use in the source is on ASCII
class names). -/
def pyUpper (s : String) : String :=
  String.mk (s.data.map Char.toUpper)

/-- `Order.status`: the state's class name with `State` removed, upper-cased
(`self._state.__class__.__name__.replace("State", "").upper()`). -/
def Order.status (o : Order) : String :=
  pyUpper (pyReplace (o._state.className) "State" "")

/-- Construction `Order(order_id=...)`: the `_state` field's default is a
`CreatedState` object, so a new order starts in the created state.  (Object
identity of that shared default is modelled below by `mkHOrder`.) -/
def mkOrder (order_id : String) : Order :=
  { order_id := order_id, _state := St.created }

/-- Run a sequence of operations the way a Python caller would: an exception
propagates, printed output concatenates. -/
def Order.runOps (o : Order) : List Op → PyResult
  | [] => .ok (o, [])
  | op :: ops => pySeq (o.apply op) (fun o2 => o2.runOps ops)

/-- The successor state the code actually assigns to each (state, operation)
pair, read off by running the operation (the order id plays no role in
dispatch). -/
def codeNext (s : St) (op : Op) : St :=
  match Order.apply { order_id := "", _state := s } op with
  | .ok (o, _) => o._state
  | .error _ => s

/-- The lines the code prints for each (state, operation) pair on an order
with the given id, read off by running the operation. -/
def codeMsg (order_id : String) (s : St) (op : Op) : List String :=
  match Order.apply { order_id := order_id, _state := s } op with
  | .ok (_, out) => out
  | .error _ => []

/-- The transition table of spec section 4.1, written from the spec's words
for comparison with the code: `some` the successor state of the five legal
transitions, `none` where the table says rejected. -/
def specNext : St → Op → Option St
  | .created, .pay => some .paid
  | .created, .cancel => some .cancelled
  | .paid, .ship => some .shipped
  | .paid, .cancel => some .cancelled
  | .shipped, .deliver => some .delivered
  | _, _ => none

/-- The display tag `status()` answers in each state. -/
def St.tag : St → String
  | .created => "CREATED"
  | .paid => "PAID"
  | .shipped => "SHIPPED"
  | .delivered => "DELIVERED"
  | .cancelled => "CANCELLED"

/-- The states reached by the successful transitions of a run, in order; a
rejected operation (successor equal to the current state) contributes
nothing. -/
def transitionsOf (s : St) : List Op → List St
  | [] => []
  | op :: ops =>
      if codeNext s op = s then transitionsOf s ops
      else codeNext s op :: transitionsOf (codeNext s op) ops

/-- A reference to a Python object on the heap of state objects. -/
abbrev Ref := Nat

/-- The heap of state objects.  The state classes declare no instance
attributes, so an object is exactly its class tag; allocation appends, and no
method ever mutates an existing state object. -/
abbrev Heap := List St

/-- Allocation `C()` of a fresh state object of class `s`. -/
def alloc (h : Heap) (s : St) : Heap × Ref :=
  (h ++ [s], h.length)

/-- The one default `CreatedState()` of the dataclass field declaration
`_state: OrderState = CreatedState()`, evaluated once at class-definition
time. -/
def initAlloc : Heap × Ref := alloc [] St.created

/-- The heap after the class definitions are evaluated. -/
def initHeap : Heap := initAlloc.1

/-- The reference held by the `_state` field's shared default value. -/
def defaultStateRef : Ref := initAlloc.2

/-- An `Order` at the object level: the `_state` field holds a reference to a
state object on the heap. -/
structure HOrder where
  order_id : String
  _state : Ref
  deriving DecidableEq, Repr

/-- Construction `Order(order_id=...)` without an explicit state: the
dataclass default binds every such order to the one shared `CreatedState`
object. -/
def mkHOrder (order_id : String) : HOrder :=
  { order_id := order_id, _state := defaultStateRef }

/-- The line `Order.log` prints, at the object level. -/
def hlog (o : HOrder) (message : String) : String :=
  "[Order " ++ o.order_id ++ "] " ++ message

/-- The result of one operation at the object level: an uncaught exception,
or the updated order, the updated heap and the printed lines. -/
abbrev HResult := Except String (HOrder × Heap × List String)

/-- A method body of the form `order._set_state(C()); order.log(msg)`:
allocate the fresh state object, point this order's field at it, log. -/
def htransition (s : St) (msg : String) (o : HOrder) (h : Heap) : HResult :=
  let a := alloc h s
  let o2 := { o with _state := a.2 }
  .ok (o2, a.1, [hlog o2 msg])

/-- A method body of the form `order.log(msg)`: a rejection touches neither
the heap nor the order. -/
def hreject (msg : String) (o : HOrder) (h : Heap) : HResult :=
  .ok (o, h, [hlog o msg])

/-- The twenty state-class methods at the object level, one entry per method
of the source. -/
def hmethod : St → Op → HOrder → Heap → HResult
  | .created, .pay => htransition St.paid "Payment received; state -> PAID"
  | .created, .ship => hreject "Cannot ship: payment pending"
  | .created, .deliver => hreject "Cannot deliver: not shipped"
  | .created, .cancel => htransition St.cancelled "Order cancelled; state -> CANCELLED"
  | .paid, .pay => hreject "Already paid"
  | .paid, .ship => htransition St.shipped "Order shipped; state -> SHIPPED"
  | .paid, .deliver => hreject "Cannot deliver: not shipped yet"
  | .paid, .cancel => htransition St.cancelled "Order cancelled; state -> CANCELLED (refund required)"
  | .shipped, .pay => hreject "Already paid and shipped"
  | .shipped, .ship => hreject "Already shipped"
  | .shipped, .deliver => htransition St.delivered "Order delivered; state -> DELIVERED"
  | .shipped, .cancel => hreject "Cannot cancel: already shipped"
  | .delivered, .pay => hreject "Already completed"
  | .delivered, .ship => hreject "Already delivered"
  | .delivered, .deliver => hreject "Already delivered"
  | .delivered, .cancel => hreject "Cannot cancel: already delivered"
  | .cancelled, .pay => hreject "Cannot pay: order cancelled"
  | .cancelled, .ship => hreject "Cannot ship: order cancelled"
  | .cancelled, .deliver => hreject "Cannot deliver: order cancelled"
  | .cancelled, .cancel => hreject "Already cancelled"

/-- Dispatch of one operation at the object level: read the class of the
referenced state object and run that class's method. -/
def HOrder.happly (o : HOrder) (h : Heap) (op : Op) : HResult :=
  match h[o._state]? with
  | none => .error "dangling state reference"
  | some cls => hmethod cls op o h

/-- The `status()` display string in each state is the state's tag. -/
lemma status_eq_tag (o : Order) : o.status = o._state.tag := by
  rcases o with ⟨id, s⟩
  cases s <;> rfl

/-- One operation always returns normally, with the successor state and the
printed lines read off by `codeNext` and `codeMsg`. -/
lemma apply_eq (id : String) (s : St) (op : Op) :
    Order.apply { order_id := id, _state := s } op =
      .ok ({ order_id := id, _state := codeNext s op }, codeMsg id s op) := by
  cases s <;> cases op <;> rfl

/-- A run of operations always returns normally and folds `codeNext` over the
sequence. -/
lemma runOps_eq (id : String) (s : St) (ops : List Op) :
    ∃ out, Order.runOps { order_id := id, _state := s } ops =
      .ok ({ order_id := id, _state := List.foldl codeNext s ops }, out) := by
  induction ops generalizing s with
  | nil => exact ⟨[], rfl⟩
  | cons op ops ih =>
      obtain ⟨out, hout⟩ := ih (codeNext s op)
      exact ⟨codeMsg id s op ++ out, by simp [Order.runOps, apply_eq, pySeq, hout]⟩

/-- The folded final state is the last successful transition's target, or the
start state when no operation succeeded. -/
lemma foldl_eq_getLastD (s : St) (ops : List Op) :
    List.foldl codeNext s ops = (transitionsOf s ops).getLastD s := by
  induction ops generalizing s with
  | nil => rfl
  | cons op ops ih =>
      by_cases h : codeNext s op = s
      · simp only [transitionsOf, if_pos h, List.foldl, h]
        exact ih s
      · simp only [transitionsOf, if_neg h, List.foldl]
        rw [ih (codeNext s op), List.getLastD_cons]

/-- A state-class method never changes what any existing heap cell holds. -/
lemma hmethod_frame (cls : St) (op : Op) (o : HOrder) (h : Heap) (i : Nat)
    (hi : i < h.length) (o2 : HOrder) (h2 : Heap) (out : List String)
    (hstep : hmethod cls op o h = .ok (o2, h2, out)) :
    h2[i]? = h[i]? := by
  cases cls <;> cases op <;>
    simp only [hmethod, htransition, hreject, alloc, Except.ok.injEq,
      Prod.mk.injEq] at hstep <;>
    obtain ⟨-, h2eq, -⟩ := hstep <;>
    subst h2eq <;>
    first
      | rfl
      | exact List.getElem?_append_left hi

/-- C1: every (state, operation) pair behaves exactly as the spec's
transition table says: the five legal transitions replace the state by the
table's successor, every other pair is rejected and leaves the order (state
and id) unchanged. -/
theorem c1_transition_table (o : Order) (op : Op) :
    ∃ out, o.apply op =
      .ok ({ o with _state := (specNext o._state op).getD o._state }, out) := by
  rcases o with ⟨id, s⟩
  cases s <;> cases op <;> exact ⟨_, rfl⟩

/-- C2: an operation always returns normally with exactly one outcome: either
it moved the state to the single successor determined by the (state,
operation) pair, or it left the state unchanged — never both, never
neither. -/
theorem c2_exactly_one_outcome (o : Order) (op : Op) :
    ∃ r : Order × List String, o.apply op = .ok r ∧
      r.1.order_id = o.order_id ∧ r.1._state = codeNext o._state op ∧
      Xor' (r.1._state ≠ o._state) (r.1._state = o._state) := by
  rcases o with ⟨id, s⟩
  cases s <;> cases op <;> exact ⟨_, rfl, rfl, rfl, by simp [Xor']⟩

/-- C3: no operation ever raises: in every state each of the four operations
returns normally (`Except.ok`), and a rejected operation returns the order
unchanged (`codeNext` fixes the state, so the update is the identity). -/
theorem c3_no_exception (o : Order) (op : Op) :
    ∃ out, o.apply op = .ok ({ o with _state := codeNext o._state op }, out) := by
  rcases o with ⟨id, s⟩
  cases s <;> cases op <;> exact ⟨_, rfl⟩

/-- C4: an order is created in state `created`, and after any sequence of the
four operations the run returns normally with a state that is one of the five
defined variants. -/
theorem c4_state_always_defined (id : String) (ops : List Op) :
    (mkOrder id)._state = St.created ∧
    ∃ o2 out, (mkOrder id).runOps ops = .ok (o2, out) ∧
      (o2._state = St.created ∨ o2._state = St.paid ∨ o2._state = St.shipped ∨
        o2._state = St.delivered ∨ o2._state = St.cancelled) := by
  refine ⟨rfl, ?_⟩
  obtain ⟨out, hout⟩ := runOps_eq id St.created ops
  refine ⟨_, out, hout, ?_⟩
  cases hs : List.foldl codeNext St.created ops <;> simp [hs]

/-- C5: a run of any sequence of operations returns normally, and `status()`
on the resulting order (a pure function of the order in this embedding) is
the display tag of the last successful transition's target, or of the initial
`created` state when no operation succeeded. -/
theorem c5_status_roundtrip (id : String) (ops : List Op) :
    ∃ o2 out, (mkOrder id).runOps ops = .ok (o2, out) ∧
      o2.status = St.tag ((transitionsOf St.created ops).getLastD St.created) := by
  obtain ⟨out, hout⟩ := runOps_eq id St.created ops
  refine ⟨_, out, hout, ?_⟩
  rw [status_eq_tag]
  show St.tag (List.foldl codeNext St.created ops) = _
  rw [foldl_eq_getLastD]

/-- C6: `delivered` and `cancelled` are terminal: every operation on an order
in either state returns normally with the order unchanged, and `cancel()` on
a cancelled order is rejected with the already-cancelled message. -/
theorem c6_terminal_states (o : Order) (op : Op)
    (h : o._state = St.delivered ∨ o._state = St.cancelled) :
    ∃ out, o.apply op = .ok (o, out) ∧
      (o._state = St.cancelled → op = Op.cancel →
        out = ["[Order " ++ o.order_id ++ "] " ++ "Already cancelled"]) := by
  rcases o with ⟨id, s⟩
  rcases h with h | h
  · obtain rfl : s = St.delivered := h
    cases op <;> exact ⟨_, rfl, fun h1 h2 => by simp at h1⟩
  · obtain rfl : s = St.cancelled := h
    cases op
    case cancel => exact ⟨_, rfl, fun h1 h2 => rfl⟩
    all_goals exact ⟨_, rfl, fun h1 h2 => by simp at h2⟩

/-- C6 witness: `cancel()` on a concrete cancelled order. -/
theorem c6_terminal_states_witness :
    ∃ out, Order.apply { order_id := "W6", _state := St.cancelled } Op.cancel =
        .ok ({ order_id := "W6", _state := St.cancelled }, out) ∧
      (St.cancelled = St.cancelled → Op.cancel = Op.cancel →
        out = ["[Order " ++ "W6" ++ "] " ++ "Already cancelled"]) :=
  c6_terminal_states { order_id := "W6", _state := St.cancelled } Op.cancel (Or.inr rfl)

/-- C7: from `created`, `pay()` transitions to `paid`; a second `pay()` is a
no-op rejection that logs the already-paid message and leaves the state
`paid` — one transition in total, not two. -/
theorem c7_pay_idempotent (o : Order) (h : o._state = St.created) :
    ∃ out1 out2,
      o.pay = .ok ({ o with _state := St.paid }, out1) ∧
      Order.pay { o with _state := St.paid } =
        .ok ({ o with _state := St.paid }, out2) ∧
      out2 = ["[Order " ++ o.order_id ++ "] " ++ "Already paid"] := by
  rcases o with ⟨id, s⟩
  obtain rfl : s = St.created := h
  exact ⟨_, _, rfl, rfl, rfl⟩

/-- C7 witness: the double `pay()` on a concrete created order. -/
theorem c7_pay_idempotent_witness :
    ∃ out1 out2,
      Order.pay { order_id := "W7", _state := St.created } =
        .ok ({ order_id := "W7", _state := St.paid }, out1) ∧
      Order.pay { order_id := "W7", _state := St.paid } =
        .ok ({ order_id := "W7", _state := St.paid }, out2) ∧
      out2 = ["[Order " ++ "W7" ++ "] " ++ "Already paid"] :=
  c7_pay_idempotent { order_id := "W7", _state := St.created } rfl

/-- C8: the order id assigned at construction is immutable: every operation
returns normally with the id unchanged (`status()` is a pure function
`Order → String` in this embedding, so it cannot write any field). -/
theorem c8_order_id_immutable (o : Order) (op : Op) :
    ∃ r : Order × List String, o.apply op = .ok r ∧ r.1.order_id = o.order_id := by
  rcases o with ⟨id, s⟩
  cases s <;> cases op <;> exact ⟨_, rfl, rfl⟩

/-- C9 counterexample: two distinct default-constructed orders hold the very
same state reference, the one default allocated at class-definition time — so
a new order does not receive its own independent initial-state value. -/
theorem c9_counterexample :
    (mkHOrder "A")._state = (mkHOrder "B")._state ∧
    (mkHOrder "A")._state = defaultStateRef ∧ "A" ≠ "B" :=
  ⟨rfl, rfl, by decide⟩

/-- C9 as amended: every order constructed without an explicit state shares
the single default `CreatedState` object bound at type-definition time, and
that shared object has class `created`. -/
theorem c9_shared_default (x : String) :
    (mkHOrder x)._state = defaultStateRef ∧
    initHeap[defaultStateRef]? = some St.created :=
  ⟨rfl, rfl⟩

/-- C10: operations on distinct orders do not interfere: an operation on
order `a` (which returns normally) leaves every existing heap cell — in
particular the state object order `b` references — unchanged, and `b`'s own
record (id and reference) is untouched; this holds even though all
default-constructed orders share the same default `CreatedState` object. -/
theorem c10_no_interference (a b : HOrder) (h : Heap) (op : Op)
    (hb : b._state < h.length) (a2 : HOrder) (h2 : Heap) (out : List String)
    (hstep : a.happly h op = .ok (a2, h2, out)) :
    h2[b._state]? = h[b._state]? ∧
    ∀ x y : String, (mkHOrder x)._state = (mkHOrder y)._state := by
  refine ⟨?_, fun x y => rfl⟩
  unfold HOrder.happly at hstep
  cases hcls : h[a._state]? with
  | none =>
      rw [hcls] at hstep
      exact Except.noConfusion hstep
  | some cls =>
      rw [hcls] at hstep
      exact hmethod_frame cls op a h b._state hb a2 h2 out hstep

/-- C10 witness: `pay()` on one concrete fresh order leaves the state object
referenced by a second fresh order unchanged. -/
theorem c10_no_interference_witness :
    ([St.created, St.paid] : Heap)[(mkHOrder "B")._state]? =
      initHeap[(mkHOrder "B")._state]? ∧
    ∀ x y : String, (mkHOrder x)._state = (mkHOrder y)._state :=
  c10_no_interference (mkHOrder "A") (mkHOrder "B") initHeap Op.pay (by decide)
    { order_id := "A", _state := 1 } [St.created, St.paid]
    ["[Order " ++ "A" ++ "] " ++ "Payment received; state -> PAID"] rfl
